import Mathlib

/-!
Shallow embedding of the FastAPI RAG service in src/src/main.py together with
src/src/utils/logger.py. The collaborator classes (WebCrawler, VectorDatabase,
RAGSystem) are imported by main.py but their modules are not among the provided
files; where a claim needs them they are modelled from the spec, as marked in
the doc comments. Exceptions are explicit Except values; the middleware stack
(FastAPI exception middleware inside the add_request_id middleware) is embedded
as functions from handler outcomes to HTTP responses.
-/

namespace RagApi

/-- A crawled document. Modelled from the spec: the Document entity created by
the crawler and persisted by the vector database (the crawler and database
modules are not among the provided files). -/
structure Document where
  url : String
  title : String
  content : String

/-- A cited source entry of a generated answer. -/
structure Source where
  title : String
  url : String

/-- Result of rag_system.generate_response_with_sources: an answer plus a
source list, read by the handler as response["answer"] and response["sources"]. -/
structure RagResponse where
  answer : String
  sources : List Source

/-- A Python exception as the handlers observe it: either a fastapi
HTTPException carrying a status code and a detail, or any other exception
carrying its str(e) message. -/
inductive Exc where
  | httpExc (status : Nat) (detail : String)
  | pyExc (msg : String)

/-- str(e) for an exception: starlette defines HTTPException str(e) as
"status: detail"; for other exceptions it is the carried message. -/
def Exc.str : Exc → String
  | .httpExc s d => toString s ++ ": " ++ d
  | .pyExc m => m

/-- The pydantic response model SearchResponse of main.py. -/
structure SearchResponse where
  answer : String
  sources : List Source
  from_cache : Bool

/-- Outcomes of the four collaborator calls the /search handler can make.
Modelled from the spec: vector_db, crawler and rag_system are module-level
singletons whose classes are not among the provided files, so each call
outcome (normal return or raised exception) is a parameter. -/
structure SearchEnv where
  dbSearch : Except Exc (List Document)
  crawl : Except Exc (List Document)
  addDocs : Except Exc Unit
  ragGen : Except Exc RagResponse

/-- Tags recording which collaborator calls a request actually performed,
in order. -/
inductive Call where
  | dbSearch
  | crawl
  | addDocs
  | ragGen
deriving DecidableEq

/-- Modelled from the spec: vector_db.add_documents is bulk insertion of the
crawled documents into the store. -/
def add_documents (store docs : List Document) : List Document := store ++ docs

/-- Modelled from the spec: vector_db.get_all_documents lists up to limit
stored documents. -/
def get_all_documents (limit : Nat) (store : List Document) : List Document :=
  store.take limit

/-- Modelled from the spec: vector_db.clear_documents deletes every stored
document. -/
def clear_documents (_store : List Document) : List Document := []

/-- The try block of search_and_answer (main.py lines 74 to 137). Python's
`if existing_docs and len(existing_docs) > 0` is truthiness of a list, hence
the isEmpty test with the two branches swapped relative to the source; same
for `if not documents`. On a cache hit it generates with from_cache = true;
on a miss it crawls, raises HTTPException(404, "No relevant documents found")
when the crawl comes back empty, and otherwise persists the crawled documents
and generates with from_cache = false. Returns the outcome, the updated store
and the collaborator calls made, in order. -/
def search_try_block (env : SearchEnv) (store : List Document) :
    Except Exc SearchResponse × List Document × List Call :=
  match env.dbSearch with
  | .error e => (.error e, store, [.dbSearch])
  | .ok existing_docs =>
    if existing_docs.isEmpty then
      match env.crawl with
      | .error e => (.error e, store, [.dbSearch, .crawl])
      | .ok documents =>
        if documents.isEmpty then
          (.error (.httpExc 404 "No relevant documents found"), store,
            [.dbSearch, .crawl])
        else
          match env.addDocs with
          | .error e => (.error e, store, [.dbSearch, .crawl, .addDocs])
          | .ok _ =>
            match env.ragGen with
            | .error e => (.error e, add_documents store documents,
                [.dbSearch, .crawl, .addDocs, .ragGen])
            | .ok r => (.ok ⟨r.answer, r.sources, false⟩,
                add_documents store documents,
                [.dbSearch, .crawl, .addDocs, .ragGen])
    else
      match env.ragGen with
      | .error e => (.error e, store, [.dbSearch, .ragGen])
      | .ok r => (.ok ⟨r.answer, r.sources, true⟩, store, [.dbSearch, .ragGen])

/-- search_and_answer with its except clause (lines 139 to 151): every
exception escaping the try block — the HTTPException(404) included, since
fastapi's HTTPException subclasses Exception — is caught and re-raised as
HTTPException(500, "Error processing request: " ++ str(e)). -/
def search_handler_body (env : SearchEnv) (store : List Document) :
    Except Exc SearchResponse × List Document × List Call :=
  let t := search_try_block env store
  let r : Except Exc SearchResponse :=
    match t.1 with
    | .ok resp => .ok resp
    | .error e => .error (.httpExc 500 ("Error processing request: " ++ Exc.str e))
  (r, t.2.1, t.2.2)

/-- The AttributeError raised by evaluating req.state.request_id when the
middleware stored no request id in the request state; the Python message, with
its quotes elided, is: State object has no attribute request_id. -/
def stateAttributeError : Exc := .pyExc "State object has no attribute request_id"

/-- The whole search_and_answer handler: its first line, before the try block,
reads req.state.request_id, which raises AttributeError when nothing stored a
request id in the request state. stateRequestId is the value found in the
request state, if any; the add_request_id middleware never stores one, so in
the running app it is always none. -/
def search_and_answer (stateRequestId : Option String) (env : SearchEnv)
    (store : List Document) :
    Except Exc SearchResponse × List Document × List Call :=
  match stateRequestId with
  | none => (.error stateAttributeError, store, [])
  | some _ => search_handler_body env store

/-- JSON bodies the service can send. -/
inductive Body where
  | search (answer : String) (sources : List Source) (from_cache : Bool)
  | detail (d : String)
  | errorWithId (detail request_id : String)
  | documents (docs : List Document)
  | message (m : String)
  | logs (entries : List String)
  | health (status database openai_api timestamp : String)
  | healthError (status error timestamp : String)

/-- An HTTP response: status code and JSON body. -/
structure HttpResponse where
  status : Nat
  body : Body

/-- FastAPI's exception middleware, which sits inside the user middleware: a
raised HTTPException becomes a JSON response with its status code and a detail
body; any other exception propagates outward. -/
def to_http (r : Except Exc Body) : Except Exc HttpResponse :=
  match r with
  | .ok b => .ok ⟨200, b⟩
  | .error (.httpExc s d) => .ok ⟨s, .detail d⟩
  | .error e => .error e

/-- Log record the add_request_id middleware writes on entry:
logger.info("Incoming request") with the request id, method, url and headers
in extra. -/
structure EntryLog where
  request_id : String
  method : String
  url : String
  headers : List (String × String)

/-- The add_request_id middleware (lines 44 to 69), response side: pass the
inner response through, or on an uncaught exception answer 500 with body
containing detail = str(e) and the request id generated for this request. -/
def add_request_id (request_id : String) (inner : Except Exc HttpResponse) :
    HttpResponse :=
  match inner with
  | .ok resp => resp
  | .error e => ⟨500, .errorWithId (Exc.str e) request_id⟩

/-- The add_request_id middleware, entry log included. request_id stands for
the fresh uuid4 string the middleware draws for this request. -/
def add_request_id_full (request_id method url : String)
    (headers : List (String × String)) (inner : Except Exc HttpResponse) :
    EntryLog × HttpResponse :=
  (⟨request_id, method, url, headers⟩, add_request_id request_id inner)

/-- Shape a SearchResponse into its JSON body. -/
def SearchResponse.toBody (r : SearchResponse) : Body :=
  .search r.answer r.sources r.from_cache

/-- POST /search through the whole stack: handler, then exception middleware,
then add_request_id. Also returns the resulting store and the call trace. -/
def search_endpoint (request_id : String) (stateRequestId : Option String)
    (env : SearchEnv) (store : List Document) :
    HttpResponse × List Document × List Call :=
  let t := search_and_answer stateRequestId env store
  (add_request_id request_id (to_http (t.1.map SearchResponse.toBody)),
   t.2.1, t.2.2)

/-- GET /documents handler (lines 153 to 162): list up to 100 documents,
answering an explicit empty list when none are stored. -/
def get_stored_documents (store : List Document) : Except Exc Body :=
  let documents := get_all_documents 100 store
  if documents.isEmpty then .ok (.documents []) else .ok (.documents documents)

/-- GET /documents through the middleware stack. -/
def get_documents_endpoint (request_id : String) (store : List Document) :
    HttpResponse :=
  add_request_id request_id (to_http (get_stored_documents store))

/-- DELETE /documents handler (lines 166 to 175): clear the store and answer
a success message. -/
def clear_documents_handler (store : List Document) :
    Except Exc Body × List Document :=
  (.ok (.message "All documents cleared successfully"), clear_documents store)

/-- DELETE /documents through the middleware stack; also returns the store. -/
def delete_documents_endpoint (request_id : String) (store : List Document) :
    HttpResponse × List Document :=
  let t := clear_documents_handler store
  (add_request_id request_id (to_http t.1), t.2)

/-- The global names bound in main.py when its handlers run: exactly the names
its import statements introduce, plus the three collaborator instances, the
app, and its own definitions. Neither logging nor datetime is among them. -/
def main_imported_names : List String :=
  ["FastAPI", "HTTPException", "Request", "CORSMiddleware", "JSONResponse",
   "BaseModel", "List", "Optional", "os", "load_dotenv", "traceback", "uuid",
   "logger", "WebCrawler", "VectorDatabase", "RAGSystem", "app", "vector_db",
   "rag_system", "crawler", "SearchRequest", "SearchResponse"]

/-- Evaluating a global name in Python: NameError when the name is unbound;
the message, quotes elided, is: name n is not defined. -/
def name_lookup (names : List String) (n : String) : Except Exc Unit :=
  if n ∈ names then .ok () else
    .error (.pyExc ("name " ++ n ++ " is not defined"))

/-- Line 17 of main.py, logging.basicConfig(level=logging.INFO), evaluates the
global name logging, which no import of main.py binds: importing the module
raises NameError. -/
def module_init : Except Exc Unit := name_lookup main_imported_names "logging"

/-- Evaluating datetime.utcnow().isoformat() inside main.py: the name datetime
is never imported there, so the expression raises NameError before any call
happens. The ok arm is unreachable. -/
def datetime_utcnow_isoformat : Except Exc String :=
  match name_lookup main_imported_names "datetime" with
  | .ok _ => .ok "1970-01-01T00:00:00"
  | .error e => .error e

/-- GET /health handler (lines 200 to 221): the try branch checks the two
connections and builds the status dict, whose timestamp entry evaluates
datetime.utcnow().isoformat(); the except branch logs and builds the fallback
dict, whose timestamp entry evaluates the same expression again. db and api
are the outcomes of vector_db.check_connection and rag_system.check_api. -/
def health_check (db api : Except Exc Bool) : Except Exc Body :=
  match (do
      let d ← db
      let a ← api
      let ts ← datetime_utcnow_isoformat
      pure (Body.health (if d && a then "healthy" else "unhealthy")
        (if d then "connected" else "disconnected")
        (if a then "connected" else "disconnected") ts) : Except Exc Body) with
  | .ok b => .ok b
  | .error e =>
    match datetime_utcnow_isoformat with
    | .ok ts => .ok (.healthError "unhealthy" (Exc.str e) ts)
    | .error e2 => .error e2

/-- GET /health through the middleware stack. -/
def health_endpoint (request_id : String) (db api : Except Exc Bool) :
    HttpResponse :=
  add_request_id request_id (to_http (health_check db api))

/-- logger.get_recent_logs(): setup_logger in utils/logger.py returns a plain
logging.Logger, and logging.Logger defines no method get_recent_logs, so the
attribute access raises AttributeError (message quotes elided). -/
def logger_get_recent_logs : Except Exc (List String) :=
  .error (.pyExc "Logger object has no attribute get_recent_logs")

/-- GET /debug/logs handler (lines 193 to 198). debugVar is the value of
os.getenv("DEBUG"), none when the variable is unset. -/
def get_recent_logs (debugVar : Option String) : Except Exc Body :=
  if debugVar = some "true" then
    match logger_get_recent_logs with
    | .ok entries => .ok (.logs entries)
    | .error e => .error e
  else .ok (.message "Debug mode not enabled")

/-- GET /debug/logs through the middleware stack. -/
def debug_logs_endpoint (request_id : String) (debugVar : Option String) :
    HttpResponse :=
  add_request_id request_id (to_http (get_recent_logs debugVar))

/-- One API operation, with the parameters that determine its store effect. -/
inductive ApiOp where
  | search (stateRequestId : Option String) (env : SearchEnv)
  | getDocuments
  | deleteDocuments
  | debugLogs (debugVar : Option String)
  | health (db api : Except Exc Bool)

/-- Store transition of one API operation. -/
def ApiOp.step : ApiOp → List Document → List Document
  | .search st env, store => (search_and_answer st env store).2.1
  | .getDocuments, store => store
  | .deleteDocuments, store => clear_documents store
  | .debugLogs _, store => store
  | .health _ _, store => store

/-- Run a sequence of API operations against a store. -/
def run_ops (ops : List ApiOp) (store : List Document) : List Document :=
  ops.foldl (fun s o => ApiOp.step o s) store

/-- Concrete documents and environments used in the concrete evaluations. -/
def docA : Document := ⟨"urlA", "titleA", "contentA"⟩

def docB : Document := ⟨"urlB", "titleB", "contentB"⟩

def srcA : Source := ⟨"titleA", "urlA"⟩

/-- Cache miss and empty crawl. -/
def envMiss : SearchEnv := ⟨.ok [], .ok [], .ok (), .ok ⟨"ans", [srcA]⟩⟩

/-- Cache hit on docA. -/
def envCached : SearchEnv := ⟨.ok [docA], .ok [], .ok (), .ok ⟨"ans", [srcA]⟩⟩

/-- Cache miss, crawl finds docA and docB. -/
def envCrawl : SearchEnv := ⟨.ok [], .ok [docA, docB], .ok (), .ok ⟨"ans", [srcA]⟩⟩

/-- vector_db.search raises a RuntimeError with message boom. -/
def envDbRaises : SearchEnv := ⟨.error (.pyExc "boom"), .ok [], .ok (), .ok ⟨"ans", []⟩⟩

/-- The try block never shrinks the store: it either leaves it unchanged or
appends the crawled documents. -/
theorem search_try_block_store_extends (env : SearchEnv) (store : List Document) :
    ∃ t, (search_try_block env store).2.1 = store ++ t := by
  obtain ⟨ds, cr, ad, rg⟩ := env
  cases ds with
  | error e => exact ⟨[], (List.append_nil store).symm⟩
  | ok existing =>
    cases existing with
    | cons d tl =>
      cases rg with
      | error e => exact ⟨[], (List.append_nil store).symm⟩
      | ok r => exact ⟨[], (List.append_nil store).symm⟩
    | nil =>
      cases cr with
      | error e => exact ⟨[], (List.append_nil store).symm⟩
      | ok documents =>
        cases documents with
        | nil => exact ⟨[], (List.append_nil store).symm⟩
        | cons d tl =>
          cases ad with
          | error e => exact ⟨[], (List.append_nil store).symm⟩
          | ok u =>
            cases rg with
            | error e => exact ⟨d :: tl, rfl⟩
            | ok r => exact ⟨d :: tl, rfl⟩

/-- Any single operation other than DELETE /documents only ever extends the
store. -/
theorem step_store_extends (op : ApiOp) (store : List Document)
    (h : op ≠ ApiOp.deleteDocuments) :
    ∃ t, ApiOp.step op store = store ++ t := by
  cases op with
  | search st env =>
    cases st with
    | none => exact ⟨[], (List.append_nil store).symm⟩
    | some s => exact search_try_block_store_extends env store
  | getDocuments => exact ⟨[], (List.append_nil store).symm⟩
  | deleteDocuments => exact absurd rfl h
  | debugLogs dv => exact ⟨[], (List.append_nil store).symm⟩
  | health db api => exact ⟨[], (List.append_nil store).symm⟩

/-- C1: with no cached match and an empty crawl the service does not answer
404 with detail "No relevant documents found": the try block does raise
HTTPException(404, "No relevant documents found"), but the blanket except
clause catches it and re-raises it as a 500 whose detail embeds the 404; and
in the running app the request fails even earlier with the AttributeError on
req.state.request_id, so no response of status 404 is possible. -/
theorem C1_no_results_answers_500_not_404 :
    (search_handler_body envMiss []).1 =
      Except.error (Exc.httpExc 500
        "Error processing request: 404: No relevant documents found")
    ∧ (search_endpoint "rid" none envMiss []).1 =
      ⟨500, Body.errorWithId "State object has no attribute request_id" "rid"⟩
    ∧ ∀ stId : Option String,
        (search_endpoint "rid" stId envMiss []).1.status ≠ 404 := by
  refine ⟨rfl, rfl, ?_⟩
  intro stId
  cases stId with
  | none => decide
  | some s =>
    show (500 : Nat) ≠ 404
    decide

/-- C2: with the cache answering docA, the deployed pipeline still fails with
the AttributeError 500 and performs no collaborator call at all; the handler
body alone, which is what the claim describes, answers from_cache = true and
invokes neither crawler.search_and_crawl nor vector_db.add_documents. -/
theorem C2_cached_match :
    (search_endpoint "rid" none envCached []).1 =
      ⟨500, Body.errorWithId "State object has no attribute request_id" "rid"⟩
    ∧ (search_endpoint "rid" none envCached []).2.2 = []
    ∧ (search_handler_body envCached []).1 = Except.ok ⟨"ans", [srcA], true⟩
    ∧ Call.crawl ∉ (search_handler_body envCached []).2.2
    ∧ Call.addDocs ∉ (search_handler_body envCached []).2.2 :=
  ⟨rfl, rfl, rfl, by decide, by decide⟩

/-- C3: with an empty cache and a crawl finding docA and docB, the deployed
pipeline answers the AttributeError 500 and persists nothing; the handler body
alone, which is what the claim describes, persists exactly the crawled
documents with add_documents before calling the RAG generation, answers
from_cache = false, and a following GET /documents lists those documents. -/
theorem C3_crawl_path :
    (search_endpoint "rid" none envCrawl []).1.status = 500
    ∧ (search_endpoint "rid" none envCrawl []).2.1 = []
    ∧ (search_handler_body envCrawl []).1 = Except.ok ⟨"ans", [srcA], false⟩
    ∧ (search_handler_body envCrawl []).2.1 = [docA, docB]
    ∧ (search_handler_body envCrawl []).2.2 =
        [Call.dbSearch, Call.crawl, Call.addDocs, Call.ragGen]
    ∧ get_documents_endpoint "rid2" (search_handler_body envCrawl []).2.1 =
        ⟨200, Body.documents [docA, docB]⟩ :=
  ⟨rfl, rfl, rfl, rfl, rfl, rfl⟩

/-- C4: on entry the middleware logs the request id with method, url and
headers, and its 500 body does carry the request id; but the request id is not
available to the handler through the request state: add_request_id never
stores it there, so the handler read raises AttributeError and every POST
/search request answers 500 with that message, for every environment and
store. -/
theorem C4_request_id_not_in_state (request_id method url : String)
    (headers : List (String × String)) (env : SearchEnv) (store : List Document) :
    (add_request_id_full request_id method url headers
        (to_http ((search_and_answer none env store).1.map SearchResponse.toBody))).1 =
      ⟨request_id, method, url, headers⟩
    ∧ (add_request_id_full request_id method url headers
        (to_http ((search_and_answer none env store).1.map SearchResponse.toBody))).2 =
      ⟨500, Body.errorWithId "State object has no attribute request_id" request_id⟩ :=
  ⟨rfl, rfl⟩

/-- C5: the except clause of the handler body does convert any collaborator
exception into a 500 whose detail is "Error processing request: " followed by
str(e); but in the running app no collaborator is ever invoked, since the
AttributeError on req.state.request_id fires first, and the request answers
500 with that message instead. -/
theorem C5_collaborator_error :
    (∀ msg : String, ∀ store : List Document,
      (search_handler_body ⟨.error (.pyExc msg), .ok [], .ok (), .ok ⟨"ans", []⟩⟩
          store).1 =
        Except.error (Exc.httpExc 500 ("Error processing request: " ++ msg)))
    ∧ (∀ env : SearchEnv, ∀ store : List Document,
        (search_and_answer none env store).2.2 = [])
    ∧ (search_endpoint "rid" none envDbRaises []).1 =
      ⟨500, Body.errorWithId "State object has no attribute request_id" "rid"⟩ := by
  refine ⟨?_, ?_, rfl⟩
  · intro msg store
    rfl
  · intro env store
    rfl

/-- C6: whatever booleans the two dependency checks return, GET /health never
answers the healthy or unhealthy status body: evaluating the timestamp raises
NameError on the unimported name datetime, in the try branch and in the except
branch alike, and the middleware answers 500 with the NameError message. -/
theorem C6_health_never_reports_status (db api : Except Exc Bool) (rid : String) :
    health_endpoint rid db api =
      ⟨500, Body.errorWithId "name datetime is not defined" rid⟩ := by
  cases db <;> cases api <;> rfl

/-- C7: with DEBUG unset or different from "true" the endpoint answers the
not-enabled message; with DEBUG = "true" the call logger.get_recent_logs()
raises AttributeError, since logging.Logger has no such method, and the
middleware answers 500 instead of the recent logs. -/
theorem C7_debug_logs (rid : String) :
    (∀ dv : Option String, dv ≠ some "true" →
      debug_logs_endpoint rid dv = ⟨200, Body.message "Debug mode not enabled"⟩)
    ∧ debug_logs_endpoint rid (some "true") =
      ⟨500, Body.errorWithId "Logger object has no attribute get_recent_logs" rid⟩ := by
  constructor
  · intro dv h
    unfold debug_logs_endpoint get_recent_logs
    rw [if_neg h]
    rfl
  · rfl

/-- C7 witness: the theorem applied with DEBUG unset. -/
theorem C7_debug_logs_witness :
    debug_logs_endpoint "r0" none = ⟨200, Body.message "Debug mode not enabled"⟩ :=
  (C7_debug_logs "r0").1 none (by decide)

/-- C8: DELETE /documents answers the success message and empties the store,
and GET /documents on the resulting store answers the empty document list,
whatever the store held before. -/
theorem C8_delete_then_get_empty (rid rid2 : String) (store : List Document) :
    (delete_documents_endpoint rid store).1 =
      ⟨200, Body.message "All documents cleared successfully"⟩
    ∧ get_documents_endpoint rid2 (delete_documents_endpoint rid store).2 =
      ⟨200, Body.documents []⟩ :=
  ⟨rfl, rfl⟩

/-- C9: the store is append-only: a sequence of API operations containing no
DELETE /documents only ever extends the stored document list, so every
already-stored document survives unmodified; the only mutations the API layer
performs are the bulk insertion inside /search and the clear of DELETE. -/
theorem C9_append_only (ops : List ApiOp) (store : List Document)
    (h : ∀ o ∈ ops, o ≠ ApiOp.deleteDocuments) :
    ∃ t, run_ops ops store = store ++ t := by
  induction ops generalizing store with
  | nil => exact ⟨[], (List.append_nil store).symm⟩
  | cons o os ih =>
    obtain ⟨t1, h1⟩ := step_store_extends o store (h o (List.mem_cons_self o os))
    obtain ⟨t2, h2⟩ :=
      ih (ApiOp.step o store) (fun o2 ho2 => h o2 (List.mem_cons_of_mem o ho2))
    refine ⟨t1 ++ t2, ?_⟩
    have hrun : run_ops (o :: os) store = run_ops os (ApiOp.step o store) := rfl
    rw [hrun, h2, h1, List.append_assoc]

/-- C9 witness: the append-only theorem applied to a concrete one-operation
sequence. -/
theorem C9_append_only_witness :
    ∃ t, run_ops [ApiOp.getDocuments] [docA] = [docA] ++ t :=
  C9_append_only [ApiOp.getDocuments] [docA]
    (fun o ho => by
      cases ho with
      | head => intro hc; cases hc
      | tail _ h2 => cases h2)

/-- C10 counterexample: with both dependency checks returning true, GET
/health does not answer an unhealthy status body carrying an error field: the
except branch raises NameError again on its own timestamp entry, and the
middleware answers 500 with an errorWithId body instead. -/
theorem C10_counterexample :
    (health_endpoint "rid" (Except.ok true) (Except.ok true)).status = 500
    ∧ (health_endpoint "rid" (Except.ok true) (Except.ok true)).body =
      Body.errorWithId "name datetime is not defined" "rid" :=
  ⟨rfl, rfl⟩

/-- C10 amended: module initialization raises NameError on the unbound name
logging; and if the module is loaded anyway, every GET /health request raises
NameError on datetime in the try branch and again in the except branch, so
the middleware answers 500 with the NameError message rather than a status
body with an error field. -/
theorem C10_import_defects (db api : Except Exc Bool) (rid : String) :
    module_init = Except.error (Exc.pyExc "name logging is not defined")
    ∧ health_check db api = Except.error (Exc.pyExc "name datetime is not defined")
    ∧ health_endpoint rid db api =
      ⟨500, Body.errorWithId "name datetime is not defined" rid⟩ := by
  refine ⟨rfl, ?_, ?_⟩
  · cases db <;> cases api <;> rfl
  · cases db <;> cases api <;> rfl

end RagApi
